import Mathlib

/-!
Shallow embedding of `grimoirelib/demography.py` (grimoire-api).

The file `demography.py` defines `ActivityPersons`, the `DurationCondition`
hierarchy (`SnapshotCondition`, `ActiveCondition`) and `DurationPersons`.
The `ActivityList` class (with `active`, `age`, `idle`, `maxend`) lives in
`scm_query.py`, which is not part of the sources; it is modelled from the
spec where needed.

Timestamps (`datetime.datetime` values) are modelled as integers `Time := Int`
(datetimes are totally ordered and support signed differences); person
identities are strings.
-/

namespace Grimoire

abbrev Person := String

abbrev Time := Int

/-- Modelled from the spec: one entry of an ActivityList (`scm_query.py`,
not under the sources) — a person together with the ordered sequence of
that person's activity timestamps. -/
structure ActivityEntry where
  person : Person
  ts : List Time
deriving DecidableEq, Repr

/-- Modelled from the spec: an ActivityList is a mapping from person to
ordered timestamp sequence, represented as a list of entries. -/
abbrev ActivityList := List ActivityEntry

/-- Maximum of a list of times (0 for the empty list, which the invariants
of ActivityList exclude). -/
def listMax : List Time → Time
  | [] => 0
  | x :: xs => xs.foldl max x

/-- Minimum of a list of times (0 for the empty list). -/
def listMin : List Time → Time
  | [] => 0
  | x :: xs => xs.foldl min x

/-- Modelled from the spec: a timestamp `t` satisfies the window
`[after, before)` — `after ≤ t` when `after` is given and `t < before`
when `before` is given; a missing bound is unbounded on that side. -/
def tsInWindow (after before : Option Time) (t : Time) : Bool :=
  (match after with
   | none => true
   | some a => decide (a ≤ t)) &&
  (match before with
   | none => true
   | some b => decide (t < b))

/-- Modelled from the spec: `ActivityList.active(after, before)` returns a
new ActivityList containing only the persons with at least one timestamp
satisfying the window; it does not mutate the receiver. -/
def ActivityList.active (l : ActivityList) (after before : Option Time) :
    ActivityList :=
  l.filter (fun e => e.ts.any (tsInWindow after before))

/-- Modelled from the spec: `age(date)` maps every person in the list to
`date - earliest(person)`. -/
def ActivityList.age (l : ActivityList) (date : Time) :
    List (Person × Time) :=
  l.map (fun e => (e.person, date - listMin e.ts))

/-- Modelled from the spec: `idle(date)` maps every person in the list to
`date - latest(person)`. -/
def ActivityList.idle (l : ActivityList) (date : Time) :
    List (Person × Time) :=
  l.map (fun e => (e.person, date - listMax e.ts))

/-- The latest timestamp across all persons and all their events
(0 on the empty list; `maxend` below guards the empty case). -/
def ActivityList.maxendVal (l : ActivityList) : Time :=
  listMax (l.map (fun e => listMax e.ts))

/-- Errors of the embedded code.  `configurationError` and
`invalidVariable` are the generic `Exception`s raised in `demography.py`
(carrying their message); `attributeError` models Python's `AttributeError`
(reading an attribute never assigned); `nameError` models Python's
`UnboundLocalError`/`NameError` (reading a local never assigned);
`emptyDomain` is the spec's EmptyDomainError of `maxend()` on an empty
list. -/
inductive DemoErr where
  | configurationError (msg : String)
  | invalidVariable (msg : String)
  | attributeError (attr : String)
  | nameError (local_name : String)
  | emptyDomain
deriving DecidableEq, Repr

/-- Modelled from the spec: `maxend()` is the latest timestamp across all
persons and all events, failing with an empty-domain error when the list
is empty. -/
def ActivityList.maxend (l : ActivityList) : Except DemoErr Time :=
  if l.isEmpty then .error .emptyDomain else .ok (ActivityList.maxendVal l)

/-- State of a `DurationPersons` object: the fields assigned by
`DurationPersons.__init__` (`self.var`, `self.activity`, `self.snapshot`). -/
structure DurationPersons where
  var : String
  activity : ActivityList
  snapshot : Option Time
deriving DecidableEq, Repr

/-- `DurationPersons.set_snapshot(time)`: `self.snapshot = time`. -/
def DurationPersons.set_snapshot (dp : DurationPersons) (time : Time) :
    DurationPersons :=
  { dp with snapshot := some time }

/-- `DurationPersons.set_activity(activity)`: `self.activity = activity`. -/
def DurationPersons.set_activity (dp : DurationPersons)
    (activity : ActivityList) : DurationPersons :=
  { dp with activity := activity }

/-- The concrete `DurationCondition`s of `demography.py`:
`SnapshotCondition(date)` and `ActiveCondition(after, before)`. -/
inductive DurationCondition where
  | snapshotCond (date : Time)
  | activeCond (after before : Option Time)
deriving DecidableEq, Repr

/-- `modify(self, object)` of each condition class:
`SnapshotCondition.modify` calls `object.set_snapshot(self.date)`;
`ActiveCondition.modify` calls
`object.set_activity(object.activity.active(after=self.after, before=self.before))`. -/
def DurationCondition.modify (c : DurationCondition) (dp : DurationPersons) :
    DurationPersons :=
  match c with
  | .snapshotCond date => dp.set_snapshot date
  | .activeCond after before =>
      dp.set_activity (dp.activity.active after before)

/-- `DurationPersons.__init__(var, activity, conditions)`:
sets `self.activity = activity`; if `var not in ("age", "idle")` raises
`Exception("Not a valid variable: " + self.var)` — but `self.var` has not
been assigned yet at that point, so what Python actually raises is an
`AttributeError` for `var`; otherwise sets `self.var = var`,
`self.snapshot = None`, and calls `condition.modify(self)` for each
condition in order. -/
def mkDurationPersons (var : String) (activity : ActivityList)
    (conditions : List DurationCondition) : Except DemoErr DurationPersons :=
  if ¬ (var = "age" ∨ var = "idle") then
    .error (.attributeError "var")
  else
    .ok (conditions.foldl (fun dp c => c.modify dp)
      ⟨var, activity, none⟩)

/-- `DurationPersons.durations()`: resolves the snapshot — `self.snapshot`
when set, else `self.activity.maxend()` — then dispatches on `self.var`:
`"age"` gives `self.activity.age(date=snapshot)`, `"idle"` gives
`self.activity.idle(date=snapshot)`; for any other value of `self.var` the
local `durations` is never assigned and `return durations` raises an
unbound-local error. -/
def DurationPersons.durations (dp : DurationPersons) :
    Except DemoErr (List (Person × Time)) :=
  match (match dp.snapshot with
         | none => dp.activity.maxend
         | some s => .ok s : Except DemoErr Time) with
  | .error e => .error e
  | .ok snapshot =>
      if dp.var = "age" then .ok (dp.activity.age snapshot)
      else if dp.var = "idle" then .ok (dp.activity.idle snapshot)
      else .error (.nameError "durations")

/-- The `durations()` method viewed as a state transformer: its body
assigns only to locals, never to any `self` attribute, so the post-state
equals the pre-state. -/
def DurationPersons.durationsCall (dp : DurationPersons) :
    Except DemoErr (List (Person × Time)) × DurationPersons :=
  (dp.durations, dp)

/-- An SQLAlchemy session: either one handed in by the caller (opaque,
identified by a tag) or one opened by `buildSession(database, echo)`. -/
inductive Session where
  | fromCaller (tag : Nat)
  | builtSession (database : String) (echo : Bool)
deriving DecidableEq, Repr

/-- The query under construction in `ActivityPersons.__init__`: the base
`self.session.query()` followed by the query-building calls of
`scm_query.py` (external, kept symbolic) and the filters contributed by
query conditions (external, tagged). -/
inductive Query where
  | base (s : Session)
  | select_personsdata (persons : String) (q : Query)
  | select_personsdata_uid (persons : String) (q : Query)
  | select_commitsperiod (q : Query)
  | group_by_person (q : Query)
  | filtered (tag : Nat) (q : Query)
deriving DecidableEq, Repr

/-- A query condition (`PeriodCondition`, `NomergesCondition`, ... —
external collaborators), kept symbolic: identified by a tag. -/
structure QueryCondition where
  tag : Nat
deriving DecidableEq, Repr

/-- `condition.filter(query)`: wraps the previous query with this
condition's (symbolic) predicate. -/
def QueryCondition.filter (c : QueryCondition) (q : Query) : Query :=
  .filtered c.tag q

/-- Externally visible events of `ActivityPersons.__init__`, in program
order: `buildSession(...)` (opening a session on the datastore) and
`self.session.query()` (creating the query object). -/
inductive Effect where
  | buildSession (database : String) (echo : Bool)
  | queryCreated
deriving DecidableEq, Repr

/-- State of an `ActivityPersons` object: `self.session` and `self.query`. -/
structure ActivityPersons where
  session : Session
  query : Query
deriving DecidableEq, Repr

/-- The part of `ActivityPersons.__init__` after the session has been
resolved: maps `var` to `persons` (`"authors"` for
`list_authors`/`list_uauthors`, `"committers"` for
`list_committers`/`list_ucommitters`, else raises the unknown-variable
`Exception`); then creates `self.query = self.session.query()`, applies the
projection (`select_personsdata` for the raw variables,
`select_personsdata_uid` for the uid variables, with a second —
unreachable — unknown-variable raise), then
`.select_commitsperiod().group_by_person()`, and finally folds each
condition's `filter` over the query in list order. -/
def mkActivityPersonsWithSession (var : String)
    (conditions : List QueryCondition) (s : Session) (fx : List Effect) :
    Except DemoErr ActivityPersons × List Effect :=
  if var = "list_authors" ∨ var = "list_uauthors" then
    mkActivityPersonsQuery var conditions s "authors" fx
  else if var = "list_committers" ∨ var = "list_ucommitters" then
    mkActivityPersonsQuery var conditions s "committers" fx
  else
    (.error (.invalidVariable
      ("ActivityPersons: Unknown variable " ++ var ++ ".")), fx)
where
  mkActivityPersonsQuery (var : String) (conditions : List QueryCondition)
      (s : Session) (persons : String) (fx : List Effect) :
      Except DemoErr ActivityPersons × List Effect :=
    let fx := fx ++ [Effect.queryCreated]
    let q0 : Query := .base s
    if var = "list_authors" ∨ var = "list_committers" then
      (.ok ⟨s, conditions.foldl (fun q c => c.filter q)
        (((q0.select_personsdata persons).select_commitsperiod).group_by_person)⟩,
       fx)
    else if var = "list_uauthors" ∨ var = "list_ucommitters" then
      (.ok ⟨s, conditions.foldl (fun q c => c.filter q)
        (((q0.select_personsdata_uid persons).select_commitsperiod).group_by_person)⟩,
       fx)
    else
      (.error (.invalidVariable
        ("ActivityPersons: Unknown variable " ++ var ++ ".")), fx)

/-- `ActivityPersons.__init__(var, conditions, session, database, echo)`:
uses the given session if there is one, else opens one with
`buildSession(database, echo)` if a database url was given, else raises the
configuration `Exception`; then proceeds with the variable dispatch and
query construction.  Returns the outcome together with the list of
external effects performed before returning or raising. -/
def mkActivityPersons (var : String) (conditions : List QueryCondition)
    (session : Option Session) (database : Option String) (echo : Bool) :
    Except DemoErr ActivityPersons × List Effect :=
  match session, database with
  | some s, _ => mkActivityPersonsWithSession var conditions s []
  | none, some db =>
      mkActivityPersonsWithSession var conditions (.builtSession db echo)
        [Effect.buildSession db echo]
  | none, none =>
      (.error (.configurationError
        ("ActivityPersons: Either a session or a " ++
         "database must be specified")), [])

/-- An operation invoked on a `DurationPersons` object after its
construction: one of the public setters, or a condition applied via
`modify`. -/
inductive DPOp where
  | opSetSnapshot (t : Time)
  | opSetActivity (l : ActivityList)
  | opCondition (c : DurationCondition)
deriving DecidableEq, Repr

/-- Apply one post-construction operation to a `DurationPersons`. -/
def DPOp.apply (dp : DurationPersons) : DPOp → DurationPersons
  | .opSetSnapshot t => dp.set_snapshot t
  | .opSetActivity l => dp.set_activity l
  | .opCondition c => c.modify dp

/-! ### Helper lemmas -/

theorem modify_var (c : DurationCondition) (dp : DurationPersons) :
    (c.modify dp).var = dp.var := by
  cases c <;> rfl

theorem modify_snapshot_of_not_snapshotCond (c : DurationCondition)
    (dp : DurationPersons) (h : ∀ d, c ≠ .snapshotCond d) :
    (c.modify dp).snapshot = dp.snapshot := by
  cases c with
  | snapshotCond d => exact absurd rfl (h d)
  | activeCond a b => rfl

theorem foldl_modify_var (l : List DurationCondition) (dp : DurationPersons) :
    (l.foldl (fun dp c => c.modify dp) dp).var = dp.var := by
  induction l generalizing dp with
  | nil => rfl
  | cons c l ih => rw [List.foldl_cons, ih, modify_var]

theorem foldl_modify_snapshot (l : List DurationCondition)
    (dp : DurationPersons)
    (h : ∀ c ∈ l, ∀ d, c ≠ DurationCondition.snapshotCond d) :
    (l.foldl (fun dp c => c.modify dp) dp).snapshot = dp.snapshot := by
  induction l generalizing dp with
  | nil => rfl
  | cons c l ih =>
      rw [List.foldl_cons,
        ih _ (fun c hc => h c (List.mem_cons_of_mem _ hc)),
        modify_snapshot_of_not_snapshotCond c dp
          (h c (List.mem_cons_self c l))]

theorem mkDurationPersons_ok (var : String) (activity : ActivityList)
    (conds : List DurationCondition) (dp : DurationPersons)
    (h : mkDurationPersons var activity conds = .ok dp) :
    (var = "age" ∨ var = "idle") ∧
    dp = conds.foldl (fun dp c => c.modify dp) ⟨var, activity, none⟩ := by
  unfold mkDurationPersons at h
  split at h
  · exact Except.noConfusion h
  · next hv => exact ⟨not_not.mp hv, (Except.ok.inj h).symm⟩

theorem activity_isEmpty_false (l : ActivityList) (h : l ≠ []) :
    l.isEmpty = false := by
  cases l with
  | nil => exact absurd rfl h
  | cons e l => rfl

theorem durations_eq_of_snapshot_some (dp : DurationPersons) (t : Time)
    (h : dp.snapshot = some t) :
    dp.durations =
      (if dp.var = "age" then .ok (ActivityList.age dp.activity t)
       else if dp.var = "idle" then .ok (ActivityList.idle dp.activity t)
       else .error (.nameError "durations")) := by
  unfold DurationPersons.durations
  rw [h]

theorem durations_eq_of_snapshot_none (dp : DurationPersons)
    (h : dp.snapshot = none) (hne : dp.activity ≠ []) :
    dp.durations =
      (if dp.var = "age" then
        .ok (ActivityList.age dp.activity (ActivityList.maxendVal dp.activity))
       else if dp.var = "idle" then
        .ok (ActivityList.idle dp.activity (ActivityList.maxendVal dp.activity))
       else .error (.nameError "durations")) := by
  unfold DurationPersons.durations ActivityList.maxend
  rw [h, activity_isEmpty_false dp.activity hne]
  simp only [Bool.false_eq_true, if_false]

/-! ### Claims -/

/-- C1: For every `DurationPersons` whose snapshot is unset and whose
activity list is non-empty, `durations()` returns
`activity.age(activity.maxend())` when `var` is `"age"` and
`activity.idle(activity.maxend())` when `var` is `"idle"`. -/
theorem c1_durations_implicit_snapshot (dp : DurationPersons)
    (hsnap : dp.snapshot = none) (hne : dp.activity ≠ []) :
    (dp.var = "age" →
      dp.durations =
        .ok (ActivityList.age dp.activity (ActivityList.maxendVal dp.activity))) ∧
    (dp.var = "idle" →
      dp.durations =
        .ok (ActivityList.idle dp.activity (ActivityList.maxendVal dp.activity))) := by
  rw [durations_eq_of_snapshot_none dp hsnap hne]
  constructor
  · intro hv; rw [if_pos hv]
  · intro hv
    rw [if_neg (by rw [hv]; decide), if_pos hv]

/-- Witness for C1 at a concrete object. -/
theorem c1_witness :
    ((⟨"age", [⟨"alice", [1, 5]⟩], none⟩ : DurationPersons).var = "age" →
      (⟨"age", [⟨"alice", [1, 5]⟩], none⟩ : DurationPersons).durations =
        .ok (ActivityList.age [⟨"alice", [1, 5]⟩]
          (ActivityList.maxendVal [⟨"alice", [1, 5]⟩]))) ∧
    ((⟨"age", [⟨"alice", [1, 5]⟩], none⟩ : DurationPersons).var = "idle" →
      (⟨"age", [⟨"alice", [1, 5]⟩], none⟩ : DurationPersons).durations =
        .ok (ActivityList.idle [⟨"alice", [1, 5]⟩]
          (ActivityList.maxendVal [⟨"alice", [1, 5]⟩]))) :=
  c1_durations_implicit_snapshot ⟨"age", [⟨"alice", [1, 5]⟩], none⟩ rfl
    (by simp)

/-- C2: For every `DurationPersons` constructed with a condition list
containing `SnapshotCondition(T)` and no later snapshot-overriding
condition, `durations()` returns `activity.age(T)` when `var` is `"age"`
and `activity.idle(T)` when `var` is `"idle"`, independently of
`activity.maxend()`. -/
theorem c2_explicit_snapshot (var : String) (activity : ActivityList)
    (pre post : List DurationCondition) (T : Time) (dp : DurationPersons)
    (hpost : ∀ c ∈ post, ∀ d, c ≠ DurationCondition.snapshotCond d)
    (hmk : mkDurationPersons var activity
      (pre ++ DurationCondition.snapshotCond T :: post) = .ok dp) :
    dp.snapshot = some T ∧
    (var = "age" → dp.durations = .ok (ActivityList.age dp.activity T)) ∧
    (var = "idle" → dp.durations = .ok (ActivityList.idle dp.activity T)) := by
  obtain ⟨hvar, hdp⟩ := mkDurationPersons_ok _ _ _ _ hmk
  have hdpv : dp.var = var := by
    rw [hdp]; exact foldl_modify_var _ _
  have hsnap : dp.snapshot = some T := by
    rw [hdp, List.foldl_append, List.foldl_cons,
      foldl_modify_snapshot post _ hpost]
    rfl
  refine ⟨hsnap, ?_, ?_⟩
  · intro hv
    rw [durations_eq_of_snapshot_some dp T hsnap, if_pos (hdpv.trans hv)]
  · intro hv
    rw [durations_eq_of_snapshot_some dp T hsnap,
      if_neg (by rw [hdpv, hv]; decide), if_pos (hdpv.trans hv)]

/-- Witness for C2 at a concrete object. -/
theorem c2_witness :
    (⟨"age", [⟨"a", [1, 3]⟩], some 100⟩ : DurationPersons).snapshot =
      some 100 ∧
    ("age" = "age" →
      (⟨"age", [⟨"a", [1, 3]⟩], some 100⟩ : DurationPersons).durations =
        .ok (ActivityList.age
          (⟨"age", [⟨"a", [1, 3]⟩], some 100⟩ : DurationPersons).activity
          100)) ∧
    ("age" = "idle" →
      (⟨"age", [⟨"a", [1, 3]⟩], some 100⟩ : DurationPersons).durations =
        .ok (ActivityList.idle
          (⟨"age", [⟨"a", [1, 3]⟩], some 100⟩ : DurationPersons).activity
          100)) :=
  c2_explicit_snapshot "age" [⟨"a", [1, 3]⟩] []
    [DurationCondition.activeCond none none] 100
    ⟨"age", [⟨"a", [1, 3]⟩], some 100⟩
    (by intro c hc d; simp at hc; rw [hc]; intro h; cases h)
    rfl

/-- The lower bound of the intersected window of two `[after, before)`
windows: the larger of the two lower bounds, an absent bound being
unbounded. -/
def optLoMax : Option Time → Option Time → Option Time
  | none, y => y
  | some a, none => some a
  | some a, some b => some (max a b)

/-- The upper bound of the intersected window of two `[after, before)`
windows: the smaller of the two upper bounds, an absent bound being
unbounded. -/
def optHiMin : Option Time → Option Time → Option Time
  | none, y => y
  | some a, none => some a
  | some a, some b => some (min a b)

/-- Counterexample to C3: for the single person `p` with timestamps
`[1, 10]`, applying `ActiveCondition(0, 5)` and then `ActiveCondition(6, ∞)`
keeps `p` (timestamp 1 witnesses the first window, timestamp 10 the
second), while the single intersected window `[6, 5)` is empty and drops
`p`. -/
theorem c3_counterexample :
    ¬ (((DurationCondition.activeCond (some 6) none).modify
          ((DurationCondition.activeCond (some 0) (some 5)).modify
            ⟨"age", [⟨"p", [1, 10]⟩], none⟩)).activity =
        ((DurationCondition.activeCond (optLoMax (some 0) (some 6))
            (optHiMin (some 5) none)).modify
          ⟨"age", [⟨"p", [1, 10]⟩], none⟩).activity) := by
  decide

/-- C3 (amended): applying `ActiveCondition(A1,B1)` and then
`ActiveCondition(A2,B2)` yields the activity list containing exactly the
persons with at least one timestamp in `[A1,B1)` and at least one
(possibly different) timestamp in `[A2,B2)`; this need not equal the
single intersected-window condition. -/
theorem c3_active_sequencing (dp : DurationPersons)
    (a1 b1 a2 b2 : Option Time) :
    ((DurationCondition.activeCond a2 b2).modify
      ((DurationCondition.activeCond a1 b1).modify dp)).activity =
    dp.activity.filter (fun e =>
      e.ts.any (tsInWindow a1 b1) && e.ts.any (tsInWindow a2 b2)) := by
  show ActivityList.active (ActivityList.active dp.activity a1 b1) a2 b2 = _
  unfold ActivityList.active
  induction dp.activity with
  | nil => rfl
  | cons e l ih =>
      by_cases hp : e.ts.any (tsInWindow a1 b1) = true
      · by_cases hq : e.ts.any (tsInWindow a2 b2) = true
        · simp only [List.filter_cons, hp, hq, Bool.and_self, if_true, ih]
        · simp only [List.filter_cons, hp, hq, Bool.true_and,
            Bool.false_eq_true, if_true, if_false, ih]
      · simp only [List.filter_cons, hp, Bool.false_and,
          Bool.false_eq_true, if_false, ih]

/-- C4 (code bug): constructing a `DurationPersons` with a variable
outside `{"age", "idle"}` evaluates `self.var` in the error message before
`self.var` has been assigned, so the constructor fails with an
AttributeError for `var` and not with the intended invalid-variable error
naming the offending variable. -/
theorem c4_invalid_variable_is_attribute_error :
    mkDurationPersons "length" [] [] =
      .error (DemoErr.attributeError "var") ∧
    ∀ msg, mkDurationPersons "length" [] [] ≠
      .error (DemoErr.invalidVariable msg) := by
  refine ⟨rfl, fun msg h => ?_⟩
  exact DemoErr.noConfusion (Except.error.inj h)

theorem withSession_invalid_var (var : String)
    (conds : List QueryCondition) (s : Session) (fx : List Effect)
    (hvar : var ≠ "list_authors" ∧ var ≠ "list_uauthors" ∧
      var ≠ "list_committers" ∧ var ≠ "list_ucommitters") :
    mkActivityPersonsWithSession var conds s fx =
      (.error (.invalidVariable
        ("ActivityPersons: Unknown variable " ++ var ++ ".")), fx) := by
  unfold mkActivityPersonsWithSession
  rw [if_neg (not_or.mpr ⟨hvar.1, hvar.2.1⟩),
      if_neg (not_or.mpr ⟨hvar.2.2.1, hvar.2.2.2⟩)]

/-- Counterexample to C5: constructing `ActivityPersons` with the invalid
variable `"list_foo"` and only a database url supplied does raise the
unknown-variable error, but only after `buildSession` has opened a session
on the datastore — not before any datastore access. -/
theorem c5_counterexample :
    (mkActivityPersons "list_foo" [] none (some "mysql://db") false).1 =
      .error (.invalidVariable
        "ActivityPersons: Unknown variable list_foo.") ∧
    (mkActivityPersons "list_foo" [] none (some "mysql://db") false).2 =
      [Effect.buildSession "mysql://db" false] :=
  ⟨rfl, rfl⟩

/-- C5 (amended): for every `var` outside the four recognized values,
constructing `ActivityPersons` with a session or a database supplied
raises the unknown-variable error before any query is created; when a
session is supplied directly, nothing precedes the error, but when only a
database url is supplied, a session is opened via `buildSession` before
the variable check. -/
theorem c5_invalid_variable (var : String) (conds : List QueryCondition)
    (session : Option Session) (db : Option String) (echo : Bool)
    (hvar : var ≠ "list_authors" ∧ var ≠ "list_uauthors" ∧
      var ≠ "list_committers" ∧ var ≠ "list_ucommitters")
    (hconn : session ≠ none ∨ db ≠ none) :
    (mkActivityPersons var conds session db echo).1 =
      .error (.invalidVariable
        ("ActivityPersons: Unknown variable " ++ var ++ ".")) ∧
    Effect.queryCreated ∉ (mkActivityPersons var conds session db echo).2 ∧
    (∀ s, session = some s →
      (mkActivityPersons var conds session db echo).2 = []) ∧
    (session = none → ∀ d, db = some d →
      (mkActivityPersons var conds session db echo).2 =
        [Effect.buildSession d echo]) := by
  cases session with
  | some s =>
      have he : mkActivityPersons var conds (some s) db echo =
          (.error (.invalidVariable
            ("ActivityPersons: Unknown variable " ++ var ++ ".")), []) := by
        show mkActivityPersonsWithSession var conds s [] = _
        exact withSession_invalid_var var conds s [] hvar
      rw [he]
      exact ⟨rfl, by simp, fun _ _ => rfl, fun h => by cases h⟩
  | none =>
      cases db with
      | some d =>
          have he : mkActivityPersons var conds none (some d) echo =
              (.error (.invalidVariable
                ("ActivityPersons: Unknown variable " ++ var ++ ".")),
               [Effect.buildSession d echo]) := by
            show mkActivityPersonsWithSession var conds
              (.builtSession d echo) [Effect.buildSession d echo] = _
            exact withSession_invalid_var var conds _ _ hvar
          rw [he]
          refine ⟨rfl, ?_, ?_, ?_⟩
          · simp
          · intro s hs
            cases hs
          · intro _ d' hd'
            injection hd' with h
            subst h
            rfl
      | none =>
          rcases hconn with h | h
          · exact absurd rfl h
          · exact absurd rfl h

/-- Witness for C5 (amended) at a concrete invalid variable, both with a
caller-supplied session and via the database branch of the theorem. -/
theorem c5_witness :
    (mkActivityPersons "length" [] (some (.fromCaller 0)) none true).1 =
      .error (.invalidVariable
        ("ActivityPersons: Unknown variable " ++ "length" ++ ".")) ∧
    Effect.queryCreated ∉
      (mkActivityPersons "length" [] (some (.fromCaller 0)) none true).2 ∧
    (∀ s, (some (Session.fromCaller 0) : Option Session) = some s →
      (mkActivityPersons "length" [] (some (.fromCaller 0)) none true).2 =
        []) ∧
    ((some (Session.fromCaller 0) : Option Session) = none →
      ∀ d, (none : Option String) = some d →
      (mkActivityPersons "length" [] (some (.fromCaller 0)) none true).2 =
        [Effect.buildSession d true]) :=
  c5_invalid_variable "length" [] (some (.fromCaller 0)) none true
    (by refine ⟨?_, ?_, ?_, ?_⟩ <;> decide)
    (Or.inl (by simp))

/-- C6: constructing `ActivityPersons` with neither a session nor a
database supplied fails with the configuration error, for every variable,
condition list and echo flag. -/
theorem c6_configuration_error (var : String) (conds : List QueryCondition)
    (echo : Bool) :
    mkActivityPersons var conds none none echo =
      (.error (.configurationError
        ("ActivityPersons: Either a session or a " ++
         "database must be specified")), []) :=
  rfl

/-- C7: for every recognized variable the constructed query is the
projection for the variable's role (raw persons data for `list_authors` /
`list_committers`, unified ids for `list_uauthors` / `list_ucommitters`),
followed by the commits-period selection and the group-by-person, with
every supplied condition's filter folded over it in list order. -/
theorem c7_query_construction (conds : List QueryCondition) (s : Session)
    (db : Option String) (echo : Bool) :
    (mkActivityPersons "list_authors" conds (some s) db echo).1 =
      .ok ⟨s, conds.foldl (fun q c => c.filter q)
        (Query.group_by_person (Query.select_commitsperiod
          (Query.select_personsdata "authors" (Query.base s))))⟩ ∧
    (mkActivityPersons "list_committers" conds (some s) db echo).1 =
      .ok ⟨s, conds.foldl (fun q c => c.filter q)
        (Query.group_by_person (Query.select_commitsperiod
          (Query.select_personsdata "committers" (Query.base s))))⟩ ∧
    (mkActivityPersons "list_uauthors" conds (some s) db echo).1 =
      .ok ⟨s, conds.foldl (fun q c => c.filter q)
        (Query.group_by_person (Query.select_commitsperiod
          (Query.select_personsdata_uid "authors" (Query.base s))))⟩ ∧
    (mkActivityPersons "list_ucommitters" conds (some s) db echo).1 =
      .ok ⟨s, conds.foldl (fun q c => c.filter q)
        (Query.group_by_person (Query.select_commitsperiod
          (Query.select_personsdata_uid "committers" (Query.base s))))⟩ :=
  ⟨rfl, rfl, rfl, rfl⟩

/-- C8: `durations()` never stores the implicitly derived snapshot — the
object is unchanged by the call and its snapshot stays `None` — so after
`set_activity(L2)` a second `durations()` call derives its reference time
from `L2.maxend()`, which may differ from the first call's. -/
theorem c8_snapshot_not_stored (dp : DurationPersons) (l2 : ActivityList)
    (hsnap : dp.snapshot = none) (hne : dp.activity ≠ []) (hne2 : l2 ≠ []) :
    dp.durationsCall.2 = dp ∧
    dp.durationsCall.2.snapshot = none ∧
    (dp.var = "age" →
      dp.durationsCall.1 =
        .ok (ActivityList.age dp.activity
          (ActivityList.maxendVal dp.activity)) ∧
      (dp.durationsCall.2.set_activity l2).durations =
        .ok (ActivityList.age l2 (ActivityList.maxendVal l2))) ∧
    (dp.var = "idle" →
      dp.durationsCall.1 =
        .ok (ActivityList.idle dp.activity
          (ActivityList.maxendVal dp.activity)) ∧
      (dp.durationsCall.2.set_activity l2).durations =
        .ok (ActivityList.idle l2 (ActivityList.maxendVal l2))) := by
  have hset_snap : (dp.set_activity l2).snapshot = none := hsnap
  have hset_ne : (dp.set_activity l2).activity ≠ [] := hne2
  refine ⟨rfl, hsnap, ?_, ?_⟩
  · intro hv
    have hvv : (dp.set_activity l2).var = "age" := hv
    constructor
    · show dp.durations = _
      rw [durations_eq_of_snapshot_none dp hsnap hne, if_pos hv]
    · show (dp.set_activity l2).durations = _
      rw [durations_eq_of_snapshot_none (dp.set_activity l2) hset_snap
        hset_ne, if_pos hvv]
      rfl
  · intro hv
    have hvv : (dp.set_activity l2).var = "idle" := hv
    constructor
    · show dp.durations = _
      rw [durations_eq_of_snapshot_none dp hsnap hne,
        if_neg (by rw [hv]; decide), if_pos hv]
    · show (dp.set_activity l2).durations = _
      rw [durations_eq_of_snapshot_none (dp.set_activity l2) hset_snap
        hset_ne, if_neg (by rw [hvv]; decide), if_pos hvv]
      rfl

/-- Witness for C8: the first call's reference time is 5, and after
`set_activity` to a list whose latest event is 7 the second call's
reference time is 7. -/
theorem c8_witness :
    (⟨"age", [⟨"a", [1, 5]⟩], none⟩ : DurationPersons).durationsCall.2 =
      ⟨"age", [⟨"a", [1, 5]⟩], none⟩ ∧
    (⟨"age", [⟨"a", [1, 5]⟩], none⟩ :
      DurationPersons).durationsCall.2.snapshot = none ∧
    ((⟨"age", [⟨"a", [1, 5]⟩], none⟩ : DurationPersons).var = "age" →
      (⟨"age", [⟨"a", [1, 5]⟩], none⟩ : DurationPersons).durationsCall.1 =
        .ok (ActivityList.age [⟨"a", [1, 5]⟩]
          (ActivityList.maxendVal [⟨"a", [1, 5]⟩])) ∧
      ((⟨"age", [⟨"a", [1, 5]⟩], none⟩ :
          DurationPersons).durationsCall.2.set_activity
            [⟨"b", [7]⟩]).durations =
        .ok (ActivityList.age [⟨"b", [7]⟩]
          (ActivityList.maxendVal [⟨"b", [7]⟩]))) ∧
    ((⟨"age", [⟨"a", [1, 5]⟩], none⟩ : DurationPersons).var = "idle" →
      (⟨"age", [⟨"a", [1, 5]⟩], none⟩ : DurationPersons).durationsCall.1 =
        .ok (ActivityList.idle [⟨"a", [1, 5]⟩]
          (ActivityList.maxendVal [⟨"a", [1, 5]⟩])) ∧
      ((⟨"age", [⟨"a", [1, 5]⟩], none⟩ :
          DurationPersons).durationsCall.2.set_activity
            [⟨"b", [7]⟩]).durations =
        .ok (ActivityList.idle [⟨"b", [7]⟩]
          (ActivityList.maxendVal [⟨"b", [7]⟩]))) :=
  c8_snapshot_not_stored ⟨"age", [⟨"a", [1, 5]⟩], none⟩ [⟨"b", [7]⟩]
    rfl (by simp) (by simp)

/-- C9: `SnapshotCondition.modify` changes only the snapshot field,
`ActiveCondition.modify` changes only the activity field, and no operation
after construction (either setter, any condition `modify`, or a
`durations()` call) ever changes the `var` field. -/
theorem c9_frame_conditions (dp : DurationPersons) (d t : Time)
    (a b : Option Time) (l : ActivityList) (c : DurationCondition) :
    ((DurationCondition.snapshotCond d).modify dp).activity =
      dp.activity ∧
    ((DurationCondition.snapshotCond d).modify dp).var = dp.var ∧
    ((DurationCondition.snapshotCond d).modify dp).snapshot = some d ∧
    ((DurationCondition.activeCond a b).modify dp).snapshot =
      dp.snapshot ∧
    ((DurationCondition.activeCond a b).modify dp).var = dp.var ∧
    (dp.set_snapshot t).var = dp.var ∧
    (dp.set_activity l).var = dp.var ∧
    (c.modify dp).var = dp.var ∧
    dp.durationsCall.2.var = dp.var :=
  ⟨rfl, rfl, rfl, rfl, rfl, rfl, rfl, modify_var c dp, rfl⟩

theorem dpop_apply_var (dp : DurationPersons) (op : DPOp) :
    (DPOp.apply dp op).var = dp.var := by
  cases op with
  | opSetSnapshot t => rfl
  | opSetActivity l => rfl
  | opCondition c => exact modify_var c dp

theorem foldl_dpop_var (ops : List DPOp) (dp : DurationPersons) :
    (ops.foldl DPOp.apply dp).var = dp.var := by
  induction ops generalizing dp with
  | nil => rfl
  | cons op ops ih => rw [List.foldl_cons, ih, dpop_apply_var]

theorem durations_ne_nameError (dp : DurationPersons)
    (h : dp.var = "age" ∨ dp.var = "idle") :
    dp.durations ≠ .error (DemoErr.nameError "durations") := by
  have hres : ∀ t : Time,
      (if dp.var = "age" then
        Except.ok (ActivityList.age dp.activity t)
       else if dp.var = "idle" then
        Except.ok (ActivityList.idle dp.activity t)
       else Except.error (DemoErr.nameError "durations")) ≠
      (Except.error (DemoErr.nameError "durations") :
        Except DemoErr (List (Person × Time))) := by
    intro t
    rcases h with hv | hv
    · rw [if_pos hv]
      intro hc
      cases hc
    · rw [if_neg (by rw [hv]; decide), if_pos hv]
      intro hc
      cases hc
  unfold DurationPersons.durations
  cases hsn : dp.snapshot with
  | some s => exact hres s
  | none =>
      unfold ActivityList.maxend
      by_cases hem : dp.activity.isEmpty = true
      · rw [if_pos hem]
        intro hc
        exact DemoErr.noConfusion (Except.error.inj hc)
      · rw [if_neg hem]
        exact hres _

/-- C10: every successfully constructed `DurationPersons` has
`var ∈ {"age", "idle"}`, the invariant is preserved by every
post-construction operation, and therefore `durations()` never reaches the
fall-through path on which its result local is unassigned. -/
theorem c10_var_invariant (var : String) (activity : ActivityList)
    (conds : List DurationCondition) (ops : List DPOp)
    (dp0 : DurationPersons)
    (hmk : mkDurationPersons var activity conds = .ok dp0) :
    ((ops.foldl DPOp.apply dp0).var = "age" ∨
      (ops.foldl DPOp.apply dp0).var = "idle") ∧
    (ops.foldl DPOp.apply dp0).durations ≠
      .error (DemoErr.nameError "durations") := by
  obtain ⟨hvar, hdp⟩ := mkDurationPersons_ok _ _ _ _ hmk
  have hv : (ops.foldl DPOp.apply dp0).var = var := by
    rw [foldl_dpop_var, hdp]
    exact foldl_modify_var _ _
  have hin : (ops.foldl DPOp.apply dp0).var = "age" ∨
      (ops.foldl DPOp.apply dp0).var = "idle" := by
    rw [hv]
    exact hvar
  exact ⟨hin, durations_ne_nameError _ hin⟩

/-- Witness for C10 at a concrete construction followed by a concrete
operation sequence. -/
theorem c10_witness :
    (([DPOp.opSetActivity [⟨"x", [2]⟩]].foldl DPOp.apply
        ⟨"idle", [], none⟩).var = "age" ∨
      ([DPOp.opSetActivity [⟨"x", [2]⟩]].foldl DPOp.apply
        ⟨"idle", [], none⟩).var = "idle") ∧
    ([DPOp.opSetActivity [⟨"x", [2]⟩]].foldl DPOp.apply
      ⟨"idle", [], none⟩).durations ≠
      .error (DemoErr.nameError "durations") :=
  c10_var_invariant "idle" [] [] [DPOp.opSetActivity [⟨"x", [2]⟩]]
    ⟨"idle", [], none⟩ rfl

end Grimoire





